import Mathlib

/-
Verification of the HVAC booking agent's dialogue-driven slot-filling engine.

Shallow embedding of the relevant parts of `src/cli.py`, `src/agent/llm_client.py`
and `src/agent/prompt.py`.  Oracle (LLM) responses and user answers are modelled
as per-cycle script inputs, since the engine treats the oracle as an opaque
external capability; everything the repository's own code computes is embedded
faithfully.
-/

namespace HvacAgent

/-- JSON-like values appearing in the parsed oracle responses.  The filter in
`extract_booking_information` only distinguishes `None`, the empty string `""`
and the empty list `[]` from other values, so this constructor set captures the
comparisons the code performs. -/
inductive Value where
  | vnull
  | vstr (s : String)
  | vnum (n : Int)
  | vbool (b : Bool)
  | vlist (l : List String)
  deriving DecidableEq, Repr

/-- Python truthiness/emptiness test used at `cli.py:213`:
`value is not None and value != "" and value != []`. -/
def nonEmptyValue (v : Value) : Bool :=
  v != Value.vnull && v != Value.vstr "" && v != Value.vlist []

/-- The Belief State: the `current_booking_data` dict of `run_prompt_chain`,
as a map from field name to value (absent keys map to `none`). -/
def BeliefState := String → Option Value

/-- `current_booking_data = {}` at `cli.py:121`. -/
def emptyState : BeliefState := fun _ => none

/-- Single-key dict assignment `d[k] = v`. -/
def setField (s : BeliefState) (k : String) (v : Value) : BeliefState :=
  fun k' => if k' = k then some v else s k'

/-- The merge at `cli.py:140`: `current_booking_data.update(extracted_data)`,
where the candidate is the (ordered) list of key/value items of the extracted
dict.  Later items overwrite earlier ones, and keys absent from the candidate
are left untouched. -/
def mergeState (s : BeliefState) (c : List (String × Value)) : BeliefState :=
  c.foldl (fun acc kv => setField acc kv.1 kv.2) s

/-- The filter loop at `cli.py:211-214`: keep only items whose value is
non-null, not the empty string and not the empty list. -/
def filterCandidate (raw : List (String × Value)) : List (String × Value) :=
  raw.filter (fun kv => nonEmptyValue kv.2)

/-- The value the last occurrence of key `k` carries in a candidate item list
(`none` when `k` does not occur).  Mirrors which write of `dict.update` wins. -/
def lastValue : List (String × Value) → String → Option Value
  | [], _ => none
  | kv :: rest, k =>
    match lastValue rest k with
    | some v => some v
    | none => if kv.1 = k then some kv.2 else none

theorem mergeState_cons (s : BeliefState) (kv : String × Value)
    (rest : List (String × Value)) :
    mergeState s (kv :: rest) = mergeState (setField s kv.1 kv.2) rest := rfl

theorem mergeState_apply (c : List (String × Value)) (s : BeliefState)
    (k : String) :
    mergeState s c k =
      match lastValue c k with
      | some v => some v
      | none => s k := by
  induction c generalizing s with
  | nil => rfl
  | cons kv rest ih =>
    rw [mergeState_cons, ih]
    cases h : lastValue rest k with
    | some v => simp [lastValue, h]
    | none =>
      simp only [lastValue, h, setField]
      by_cases hk : kv.1 = k
      · simp [hk]
      · have hk' : ¬ k = kv.1 := fun h' => hk h'.symm
        simp [hk, hk']

/-- C2: merge is monotonic — every field present in `s` is still present in
`merge(s, c)`, for every candidate item list `c`, even when `c` omits the
field.  `dict.update` never deletes a key. -/
theorem mergeMonotonic (s : BeliefState) (c : List (String × Value))
    (k : String) (h : s k ≠ none) : mergeState s c k ≠ none := by
  rw [mergeState_apply]
  cases lastValue c k <;> simp [h]

/-- A belief state that already knows the city, used to instantiate
`mergeMonotonic` on a candidate that omits that field. -/
def knownCity : BeliefState := setField emptyState "city" (Value.vstr "Toronto")

/-- Witness for C2: the known `city` field survives a merge with a candidate
set that omits it. -/
theorem mergeMonotonicWitness :
    mergeState knownCity [("service_type", Value.vstr "ac_repair")] "city" ≠ none :=
  mergeMonotonic knownCity [("service_type", Value.vstr "ac_repair")] "city"
    (by decide)

/-- C3: merge is idempotent — applying the same candidate item list a second
time is a no-op: `merge(merge(s,c),c) = merge(s,c)`. -/
theorem mergeIdempotent (s : BeliefState) (c : List (String × Value)) :
    mergeState (mergeState s c) c = mergeState s c := by
  funext k
  simp only [mergeState_apply]
  cases lastValue c k <;> simp

/-- ASCII lowering of one character, as `str.lower` acts on the ASCII range
(the cancellation tokens at `cli.py:164` are ASCII). -/
def lowerChar (c : Char) : Char :=
  if c.isUpper then Char.ofNat (c.toNat + 32) else c

/-- `user_response.lower()` at `cli.py:164`. -/
def pyLower (s : String) : String := String.mk (s.toList.map lowerChar)

/-- Characters removed by Python's default `str.strip()`. -/
def isSpaceChar (c : Char) : Bool :=
  c = ' ' || c = '\t' || c = '\n' || c = '\r' || c = '\x0b' || c = '\x0c'

/-- `followup_question.strip()` at `cli.py:271`. -/
def pyStrip (s : String) : String :=
  String.mk (((s.toList.dropWhile isSpaceChar).reverse.dropWhile isSpaceChar).reverse)

/-- The literal list at `cli.py:164`: `["quit", "exit", "cancel"]`. -/
def cancellationTokens : List String := ["quit", "exit", "cancel"]

/-- The parsed JSON object returned by `validate_booking_information`. -/
structure ValidationResult where
  is_complete : Bool
  missing_fields : List String
  questions : List String
  deriving DecidableEq, Repr

/-- The fallback built in the `except` branch of `validate_booking_information`
(`cli.py:248`): `{"is_complete": False, "missing_fields": [], "questions": []}`. -/
def defaultValidation : ValidationResult :=
  { is_complete := false, missing_fields := [], questions := [] }

/-- Everything external that one loop cycle of `run_prompt_chain` consumes:
the oracle responses of the three calls (`none` models a raised
transport/parse fault, which each helper catches internally) and the user's
literal answer to the follow-up question. -/
structure CycleInput where
  extractionResponse : Option (List (String × Value))
  validationResponse : Option ValidationResult
  followupResponse : Option String
  userAnswer : String

/-- Which code path of `run_prompt_chain` produced the terminal value. -/
inductive ChainExit where
  | extractFailed
  | completed
  | followupFailed
  | cancelled
  | capReached
  deriving DecidableEq, Repr

/-- Result of one loop body execution: either the function returns/breaks
(`halt` carries the returned value), or the loop continues with a new state. -/
inductive StepOutcome where
  | halt (result : Option BeliefState) (exit : ChainExit)
  | next (state : BeliefState)

/-- One body execution of the `while` loop at `cli.py:126-173`:
extraction (fault or empty result returns `None`), merge, validation
(a fault degrades to `defaultValidation`), completeness break, follow-up
generation (fault or blank question breaks with the current data),
cancellation-token check, else continue. -/
def cycleStep (inp : CycleInput) (state : BeliefState) : StepOutcome :=
  match inp.extractionResponse with
  | none => .halt none .extractFailed
  | some raw =>
    let extracted := filterCandidate raw
    if extracted.isEmpty then .halt none .extractFailed
    else
      let state' := mergeState state extracted
      let vr := inp.validationResponse.getD defaultValidation
      if vr.is_complete then .halt (some state') .completed
      else
        match inp.followupResponse with
        | none => .halt (some state') .followupFailed
        | some q =>
          if (pyStrip q).isEmpty then .halt (some state') .followupFailed
          else if pyLower inp.userAnswer ∈ cancellationTokens then
            .halt none .cancelled
          else .next state'

/-- `max_iterations = 10` at `cli.py:123`. -/
def maxIterations : Nat := 10

/-- Terminal value of the loop together with the number of cycles executed. -/
structure ChainRun where
  result : Option BeliefState
  exit : ChainExit
  cycles : Nat

/-- The `while iteration < max_iterations` loop: `fuel` counts the remaining
permitted iterations, `idx` indexes the per-cycle script of oracle responses
and user answers.  When the fuel runs out the function returns the
accumulated `current_booking_data` (`cli.py:175-180`). -/
def runChainAux (script : Nat → CycleInput) :
    Nat → Nat → BeliefState → ChainRun
  | 0, _, state => { result := some state, exit := .capReached, cycles := 0 }
  | fuel + 1, idx, state =>
    match cycleStep (script idx) state with
    | .halt r e => { result := r, exit := e, cycles := 1 }
    | .next s' =>
      let rest := runChainAux script fuel (idx + 1) s'
      { result := rest.result, exit := rest.exit, cycles := rest.cycles + 1 }

/-- `run_prompt_chain` (`cli.py:108-180`): starts from the empty belief state
and runs at most `maxIterations` cycles. -/
def runChain (script : Nat → CycleInput) : ChainRun :=
  runChainAux script maxIterations 0 emptyState

/-- One line of the append-only `booking_records.jsonl` log: the dict literal
built at `cli.py:526-530`. -/
structure BookingRecord where
  booking_data : BeliefState
  ai_summary : String
  timestamp : String

/-- Key order of the persisted record dict at `cli.py:526-530`. -/
def recordKeys : List String := ["booking_data", "ai_summary", "timestamp"]

/-- Record shape as the spec describes it (§6): `\x7b "booking_data": ...,
"timestamp": ... \x7d` — stated from the spec's words only, for comparison
with `recordKeys`. -/
def specRecordKeys : List String := ["booking_data", "timestamp"]

/-- `save_booking_record` (`cli.py:521-540`): opens the log in append mode and
writes exactly one line holding the record. -/
def saveBookingRecord (log : List BookingRecord) (data : BeliefState)
    (summary : String) (ts : String) : List BookingRecord :=
  log ++ [{ booking_data := data, ai_summary := summary, timestamp := ts }]

/-- `generate_booking_summary` (`cli.py:392-468`): a raised fault from the
summary oracle call is caught and no record is saved; otherwise the record is
saved with the returned summary text. -/
def generateBookingSummary (summaryResponse : Option String)
    (log : List BookingRecord) (data : BeliefState) (ts : String) :
    List BookingRecord :=
  match summaryResponse with
  | none => log
  | some summary => saveBookingRecord log data summary ts

/-- Terminal outcome of `start_booking_process`. -/
inductive BookingOutcome where
  | completed
  | cancelled
  deriving DecidableEq, Repr

/-- Final log and outcome of one conversation. -/
structure BookingFinal where
  log : List BookingRecord
  outcome : BookingOutcome

/-- `start_booking_process` (`cli.py:68-105`) after the chain: a `None` chain
result means cancellation with nothing persisted; otherwise the user is asked
to confirm, and only a confirmed booking reaches summary generation and
persistence.  (The Python falsiness test `if not booking_data` also covers an
empty dict, but the chain never returns a non-`None` empty dict: every kept
cycle merges a non-empty extraction.) -/
def startBookingProcess (script : Nat → CycleInput) (confirmAnswer : Bool)
    (summaryResponse : Option String) (ts : String)
    (log : List BookingRecord) : BookingFinal :=
  match (runChain script).result with
  | none => { log := log, outcome := .cancelled }
  | some data =>
    if confirmAnswer then
      { log := generateBookingSummary summaryResponse log data ts
        outcome := .completed }
    else { log := log, outcome := .cancelled }

/-- The Belief State invariant of §3: a field name is present only if it holds
a non-empty value. -/
def stateInv (s : BeliefState) : Prop :=
  ∀ k v, s k = some v → nonEmptyValue v = true

theorem lastValue_mem {c : List (String × Value)} {k : String} {v : Value}
    (h : lastValue c k = some v) : (k, v) ∈ c := by
  induction c with
  | nil => cases h
  | cons kv rest ih =>
    rcases kv with ⟨k1, v1⟩
    simp only [lastValue] at h
    cases hr : lastValue rest k with
    | some w =>
      rw [hr] at h
      cases h
      exact List.mem_cons_of_mem _ (ih hr)
    | none =>
      rw [hr] at h
      by_cases hk : k1 = k
      · rw [if_pos hk] at h
        have hv := Option.some.inj h
        rw [← hk, ← hv]
        exact List.mem_cons_self _ _
      · rw [if_neg hk] at h
        cases h

theorem stateInv_merge (s : BeliefState) (raw : List (String × Value))
    (hs : stateInv s) : stateInv (mergeState s (filterCandidate raw)) := by
  intro k v hv
  rw [mergeState_apply] at hv
  cases hl : lastValue (filterCandidate raw) k with
  | none => rw [hl] at hv; exact hs k v hv
  | some w =>
    rw [hl] at hv
    cases hv
    have hmem := lastValue_mem hl
    simp only [filterCandidate, List.mem_filter] at hmem
    exact hmem.2

theorem cycleStep_cases (inp : CycleInput) (s : BeliefState) :
    cycleStep inp s = StepOutcome.halt none ChainExit.extractFailed
    ∨ cycleStep inp s = StepOutcome.halt none ChainExit.cancelled
    ∨ ∃ raw, inp.extractionResponse = some raw ∧
        (cycleStep inp s =
            StepOutcome.halt (some (mergeState s (filterCandidate raw)))
              ChainExit.completed
         ∨ cycleStep inp s =
            StepOutcome.halt (some (mergeState s (filterCandidate raw)))
              ChainExit.followupFailed
         ∨ cycleStep inp s =
            StepOutcome.next (mergeState s (filterCandidate raw))) := by
  cases h1 : inp.extractionResponse with
  | none => left; simp [cycleStep, h1]
  | some raw =>
    by_cases h2 : (filterCandidate raw).isEmpty
    · left; simp [cycleStep, h1, h2]
    · by_cases h3 : (inp.validationResponse.getD defaultValidation).is_complete
      · exact Or.inr (Or.inr ⟨raw, rfl, Or.inl (by simp [cycleStep, h1, h2, h3])⟩)
      · cases h4 : inp.followupResponse with
        | none =>
          exact Or.inr (Or.inr ⟨raw, rfl,
            Or.inr (Or.inl (by simp [cycleStep, h1, h2, h3, h4]))⟩)
        | some q =>
          by_cases h5 : (pyStrip q).isEmpty
          · exact Or.inr (Or.inr ⟨raw, rfl,
              Or.inr (Or.inl (by simp [cycleStep, h1, h2, h3, h4, h5]))⟩)
          · by_cases h6 : pyLower inp.userAnswer ∈ cancellationTokens
            · exact Or.inr (Or.inl (by simp [cycleStep, h1, h2, h3, h4, h5, h6]))
            · exact Or.inr (Or.inr ⟨raw, rfl,
                Or.inr (Or.inr (by simp [cycleStep, h1, h2, h3, h4, h5, h6]))⟩)

theorem cycleStep_halt_state {inp : CycleInput} {s t : BeliefState}
    {e : ChainExit} (h : cycleStep inp s = StepOutcome.halt (some t) e) :
    ∃ raw, inp.extractionResponse = some raw
      ∧ t = mergeState s (filterCandidate raw) := by
  rcases cycleStep_cases inp s with hc | hc | ⟨raw, hraw, hc | hc | hc⟩ <;>
    rw [hc] at h
  · injection h with h1 _; cases h1
  · injection h with h1 _; cases h1
  · injection h with h1 _; exact ⟨raw, hraw, (Option.some.inj h1).symm⟩
  · injection h with h1 _; exact ⟨raw, hraw, (Option.some.inj h1).symm⟩
  · cases h

theorem cycleStep_next_state {inp : CycleInput} {s t : BeliefState}
    (h : cycleStep inp s = StepOutcome.next t) :
    ∃ raw, inp.extractionResponse = some raw
      ∧ t = mergeState s (filterCandidate raw) := by
  rcases cycleStep_cases inp s with hc | hc | ⟨raw, hraw, hc | hc | hc⟩ <;>
    rw [hc] at h
  · cases h
  · cases h
  · cases h
  · cases h
  · injection h with h1; exact ⟨raw, hraw, h1.symm⟩

theorem cycleStep_halt_exit {inp : CycleInput} {s : BeliefState}
    {r : Option BeliefState} {e : ChainExit}
    (h : cycleStep inp s = StepOutcome.halt r e) :
    e ≠ ChainExit.capReached := by
  rcases cycleStep_cases inp s with hc | hc | ⟨raw, hraw, hc | hc | hc⟩ <;>
    rw [hc] at h
  · injection h with _ h2; rw [← h2]; intro hx; cases hx
  · injection h with _ h2; rw [← h2]; intro hx; cases hx
  · injection h with _ h2; rw [← h2]; intro hx; cases hx
  · injection h with _ h2; rw [← h2]; intro hx; cases hx
  · cases h

theorem runChainAux_cycles_le (script : Nat → CycleInput) :
    ∀ fuel idx state, (runChainAux script fuel idx state).cycles ≤ fuel := by
  intro fuel
  induction fuel with
  | zero => intro idx state; simp [runChainAux]
  | succ n ih =>
    intro idx state
    simp only [runChainAux]
    cases h : cycleStep (script idx) state with
    | halt r e => simp
    | next s' => simpa using Nat.succ_le_succ (ih (idx + 1) s')

theorem runChainAux_capReached (script : Nat → CycleInput) :
    ∀ fuel idx state,
      (runChainAux script fuel idx state).exit = ChainExit.capReached →
      ∃ t, (runChainAux script fuel idx state).result = some t := by
  intro fuel
  induction fuel with
  | zero => intro idx state _; exact ⟨state, rfl⟩
  | succ n ih =>
    intro idx state hcap
    simp only [runChainAux] at hcap ⊢
    cases h : cycleStep (script idx) state with
    | halt r e =>
      rw [h] at hcap
      exact absurd hcap (cycleStep_halt_exit h)
    | next s' =>
      rw [h] at hcap
      exact ih (idx + 1) s' hcap

theorem runChainAux_inv (script : Nat → CycleInput) :
    ∀ fuel idx state t, stateInv state →
      (runChainAux script fuel idx state).result = some t → stateInv t := by
  intro fuel
  induction fuel with
  | zero =>
    intro idx state t hs hres
    cases hres
    exact hs
  | succ n ih =>
    intro idx state t hs hres
    simp only [runChainAux] at hres
    cases h : cycleStep (script idx) state with
    | halt r e =>
      rw [h] at hres
      cases r with
      | none => cases hres
      | some u =>
        cases hres
        obtain ⟨raw, _, hu⟩ := cycleStep_halt_state h
        rw [hu]
        exact stateInv_merge state raw hs
    | next s' =>
      rw [h] at hres
      obtain ⟨raw, _, hu⟩ := cycleStep_next_state h
      exact ih (idx + 1) s' t (hu ▸ stateInv_merge state raw hs) hres

/-- C7: Belief State invariant — the empty starting state satisfies it, every
merge of a filtered extraction preserves it (null / empty-string / empty-list
candidate values are dropped by the filter before the merge), and every state
the chain can return satisfies it. -/
theorem beliefStateInvariant :
    stateInv emptyState
    ∧ (∀ s raw, stateInv s → stateInv (mergeState s (filterCandidate raw)))
    ∧ (∀ script t, (runChain script).result = some t → stateInv t) := by
  have hempty : stateInv emptyState := by
    intro k v h
    simp [emptyState] at h
  refine ⟨hempty, fun s raw hs => stateInv_merge s raw hs, ?_⟩
  intro script t hres
  exact runChainAux_inv script maxIterations 0 emptyState t hempty hres

/-- Witness for C7: merging a candidate that carries an empty string alongside
a real value yields a state satisfying the invariant. -/
theorem beliefStateInvariantWitness :
    stateInv (mergeState emptyState (filterCandidate
      [("equipment_brand", Value.vstr ""), ("city", Value.vstr "Toronto")])) :=
  beliefStateInvariant.2.1 emptyState
    [("equipment_brand", Value.vstr ""), ("city", Value.vstr "Toronto")]
    beliefStateInvariant.1

/-- A fault-free cycle input whose validation never reports completeness. -/
def steadyInput : CycleInput :=
  { extractionResponse := some [("service_type", Value.vstr "ac_repair")]
    validationResponse := some defaultValidation
    followupResponse := some "What is your phone number?"
    userAnswer := "my AC is broken" }

/-- Script of fault-free never-complete cycles: drives the loop to its cap. -/
def steadyScript : Nat → CycleInput := fun _ => steadyInput

/-- A cycle whose Completeness Checker call faults (the oracle raised). -/
def checkerFaultInput : CycleInput :=
  { steadyInput with validationResponse := none }

/-- Script in which the checker faults on every cycle. -/
def checkerFaultScript : Nat → CycleInput := fun _ => checkerFaultInput

/-- A cycle whose Extraction Adapter call faults (the oracle raised). -/
def extractionFaultInput : CycleInput :=
  { steadyInput with extractionResponse := none }

/-- Script with exactly one faulted cycle: extraction faults on cycle 1 and
every later cycle would be fault-free. -/
def singleFaultScript : Nat → CycleInput := fun i =>
  if i = 0 then extractionFaultInput else steadyInput

/-- Script in which the user answers "QUIT" to the first follow-up question. -/
def quitScript : Nat → CycleInput := fun _ =>
  { steadyInput with userAnswer := "QUIT" }

/-- C4 counterexample: with a Completeness-Checker fault on every cycle, the
first three cycles are three consecutive fault cycles, yet the Controller does
not reach a terminal state until the 10-cycle ceiling: the loop runs all 10
cycles and exits through the iteration cap, so "terminal within 3 consecutive
fault cycles, whichever comes first" is false of the code. -/
theorem chainCapCounterexample :
    (runChain checkerFaultScript).cycles = 10
    ∧ (runChain checkerFaultScript).exit = ChainExit.capReached
    ∧ (checkerFaultScript 0).validationResponse = none
    ∧ (checkerFaultScript 1).validationResponse = none
    ∧ (checkerFaultScript 2).validationResponse = none :=
  ⟨rfl, rfl, rfl, rfl, rfl⟩

/-- C4 (amended): the Dialogue Loop Controller reaches a terminal state within
10 asking-cycles for every conversation (there is no three-consecutive-fault
early exit), and whenever the 10-cycle ceiling elapses the loop is forced into
the DONE path that returns whatever partial Belief State has accumulated. -/
theorem chainTerminationCap :
    (∀ script, (runChain script).cycles ≤ maxIterations)
    ∧ (∀ script, (runChain script).exit = ChainExit.capReached →
        ∃ t, (runChain script).result = some t) :=
  ⟨fun script => runChainAux_cycles_le script maxIterations 0 emptyState,
   fun script h => runChainAux_capReached script maxIterations 0 emptyState h⟩

/-- Witness for C4: a fault-free never-complete conversation hits the cap and
still yields a belief state. -/
theorem chainTerminationCapWitness :
    (runChain steadyScript).cycles ≤ maxIterations
    ∧ ∃ t, (runChain steadyScript).result = some t :=
  ⟨chainTerminationCap.1 steadyScript, chainTerminationCap.2 steadyScript rfl⟩

/-- C5: a user answer that case-insensitively matches a cancellation token
makes the cycle halt at once with no data (the partial Belief State is
discarded), such a halt ends the whole loop on that very cycle, a chain that
returned no data leads to the cancelled outcome with the persisted log
untouched, and a declined final confirmation also leaves the log untouched
with the cancelled outcome. -/
theorem userAbortNoPersistence :
    (∀ (inp : CycleInput) (state : BeliefState) raw q,
        inp.extractionResponse = some raw →
        (filterCandidate raw).isEmpty = false →
        (inp.validationResponse.getD defaultValidation).is_complete = false →
        inp.followupResponse = some q →
        (pyStrip q).isEmpty = false →
        pyLower inp.userAnswer ∈ cancellationTokens →
        cycleStep inp state = StepOutcome.halt none ChainExit.cancelled)
    ∧ (∀ script fuel idx state,
        cycleStep (script idx) state = StepOutcome.halt none ChainExit.cancelled →
        runChainAux script (fuel + 1) idx state =
          { result := none, exit := ChainExit.cancelled, cycles := 1 })
    ∧ (∀ script confirm sr ts log,
        (runChain script).result = none →
        startBookingProcess script confirm sr ts log =
          { log := log, outcome := BookingOutcome.cancelled })
    ∧ (∀ script sr ts log,
        (startBookingProcess script false sr ts log).log = log
        ∧ (startBookingProcess script false sr ts log).outcome =
            BookingOutcome.cancelled) := by
  refine ⟨?_, ?_, ?_, ?_⟩
  · intro inp state raw q h1 h2 h3 h4 h5 h6
    simp [cycleStep, h1, h2, h3, h4, h5, h6]
  · intro script fuel idx state h
    simp [runChainAux, h]
  · intro script confirm sr ts log h
    simp [startBookingProcess, h]
  · intro script sr ts log
    unfold startBookingProcess
    cases (runChain script).result with
    | none => exact ⟨rfl, rfl⟩
    | some data => simp

/-- Witness for C5: the literal answer "QUIT" on the first cycle halts the
chain at once with no data, and neither path appends to the log. -/
theorem userAbortNoPersistenceWitness :
    cycleStep (quitScript 0) emptyState = StepOutcome.halt none ChainExit.cancelled
    ∧ runChainAux quitScript 10 0 emptyState =
        { result := none, exit := ChainExit.cancelled, cycles := 1 }
    ∧ startBookingProcess quitScript true (some "s") "t" [] =
        { log := [], outcome := BookingOutcome.cancelled }
    ∧ (startBookingProcess quitScript false (some "s") "t" []).log = [] := by
  have h1 : cycleStep (quitScript 0) emptyState =
      StepOutcome.halt none ChainExit.cancelled :=
    userAbortNoPersistence.1 (quitScript 0) emptyState
      [("service_type", Value.vstr "ac_repair")] "What is your phone number?"
      rfl rfl rfl rfl rfl (by decide)
  have h2 := userAbortNoPersistence.2.1 quitScript 9 0 emptyState h1
  have h3 := userAbortNoPersistence.2.2.1 quitScript true (some "s") "t" [] rfl
  have h4 := (userAbortNoPersistence.2.2.2 quitScript (some "s") "t" []).1
  exact ⟨h1, h2, h3, h4⟩

/-- C6 counterexample: a single extraction-fault cycle (cycle 1 faults, every
later cycle is fault-free) is not handled as a retried no-op: the conversation
is aborted immediately with no data after that one faulted cycle. -/
theorem faultRetryCounterexample :
    runChain singleFaultScript =
      { result := none, exit := ChainExit.extractFailed, cycles := 1 }
    ∧ (singleFaultScript 1).extractionResponse ≠ none :=
  ⟨rfl, by decide⟩

/-- C6 (amended): a Completeness-Checker fault is a no-op for that check only
— the cycle proceeds exactly as if the checker had answered "not complete"
(keeping that cycle's merge) — while an Extraction Adapter fault aborts the
conversation immediately on its first faulted cycle, with no merge, no retry
and no three-consecutive-fault counter. -/
theorem faultHandlingAmended :
    (∀ (inp : CycleInput) (state : BeliefState),
        inp.validationResponse = none →
        cycleStep inp state =
          cycleStep { inp with validationResponse := some defaultValidation }
            state)
    ∧ (∀ script fuel idx state,
        (script idx).extractionResponse = none →
        runChainAux script (fuel + 1) idx state =
          { result := none, exit := ChainExit.extractFailed, cycles := 1 }) := by
  constructor
  · intro inp state h
    cases inp
    simp only at h
    subst h
    rfl
  · intro script fuel idx state h
    simp [runChainAux, cycleStep, h]

/-- Witness for C6: the checker-fault cycle behaves exactly like the same
cycle with a "not complete" checker answer, and the extraction-fault script
aborts the loop on its first cycle. -/
theorem faultHandlingAmendedWitness :
    cycleStep checkerFaultInput emptyState =
      cycleStep { checkerFaultInput with
        validationResponse := some defaultValidation } emptyState
    ∧ runChainAux singleFaultScript 10 0 emptyState =
        { result := none, exit := ChainExit.extractFailed, cycles := 1 } :=
  ⟨faultHandlingAmended.1 checkerFaultInput emptyState rfl,
   faultHandlingAmended.2 singleFaultScript 9 0 emptyState rfl⟩

/-- Outcome of one raw OpenAI API attempt inside `_chat_completion`
(`llm_client.py:61-94`): a returned content string, or one of the exception
classes relevant to the `tenacity` retry predicate. -/
inductive ApiOutcome where
  | success (content : String)
  | connectionFault
  | timeoutFault
  | otherFault
  deriving DecidableEq, Repr

/-- `retry_if_exception_type((ConnectionError, TimeoutError))` at
`llm_client.py:59`. -/
def transientFault : ApiOutcome → Bool
  | .connectionFault => true
  | .timeoutFault => true
  | _ => false

/-- `stop_after_attempt(3)` at `llm_client.py:57`. -/
def stopAfterAttempt : Nat := 3

/-- `wait_exponential(multiplier=1, min=4, max=10)` at `llm_client.py:58`:
the sleep after failed attempt number `n` is `1 * 2 ^ n` clamped to `[4, 10]`
seconds. -/
def waitExponentialSeconds (attemptNumber : Nat) : Nat :=
  max 4 (min (2 ^ attemptNumber) 10)

/-- How a `_chat_completion` call can end when it does not return content. -/
inductive ChatError where
  | retriesExhausted
  | immediateRaise
  deriving DecidableEq, Repr

/-- Observable behaviour of one decorated `_chat_completion` call: its result,
the number of API attempts consumed, and the backoff sleeps performed. -/
structure ChatOutcome where
  result : Except ChatError String
  attemptsUsed : Nat
  waits : List Nat
  deriving Repr

/-- The tenacity retry loop around `_chat_completion`: attempt `i` (0-based)
runs the API call; a success returns its content; an exception of a transient
class is retried after the exponential-backoff sleep while attempts remain,
and raises once `stop_after_attempt` is reached; any other exception is
re-raised immediately with no retry. -/
def chatCompletionAux (oracle : Nat → ApiOutcome) : Nat → Nat → ChatOutcome
  | 0, _ => { result := .error .retriesExhausted, attemptsUsed := 0, waits := [] }
  | fuel + 1, i =>
    match oracle i with
    | .success c => { result := .ok c, attemptsUsed := 1, waits := [] }
    | outcome =>
      if transientFault outcome then
        if fuel = 0 then
          { result := .error .retriesExhausted, attemptsUsed := 1, waits := [] }
        else
          let rest := chatCompletionAux oracle fuel (i + 1)
          { result := rest.result
            attemptsUsed := rest.attemptsUsed + 1
            waits := waitExponentialSeconds (i + 1) :: rest.waits }
      else { result := .error .immediateRaise, attemptsUsed := 1, waits := [] }

/-- One `_chat_completion` call site under its retry decorator. -/
def chatCompletion (oracle : Nat → ApiOutcome) : ChatOutcome :=
  chatCompletionAux oracle stopAfterAttempt 0

/-- `extract_booking_information` (`cli.py:183-220`) at the adapter level:
a raised chat fault or a JSON parse failure is caught by the function's own
`except` and becomes `None` (no exception escapes to the process); a parsed
response is filtered and returned.  The JSON parser is external and is passed
in abstractly. -/
def extractBookingInformation (oracle : Nat → ApiOutcome)
    (parse : String → Option (List (String × Value))) :
    Option (List (String × Value)) :=
  match (chatCompletion oracle).result with
  | .error _ => none
  | .ok c =>
    match parse c with
    | none => none
    | some items => some (filterCandidate items)

theorem chatCompletionAux_attempts_le (oracle : Nat → ApiOutcome) :
    ∀ fuel i, (chatCompletionAux oracle fuel i).attemptsUsed ≤ fuel := by
  intro fuel
  induction fuel with
  | zero => intro i; simp [chatCompletionAux]
  | succ n ih =>
    intro i
    simp only [chatCompletionAux]
    cases oracle i with
    | success c => simp
    | connectionFault =>
      by_cases hn : n = 0
      · simp [transientFault, hn]
      · simpa [transientFault, hn] using Nat.succ_le_succ (ih (i + 1))
    | timeoutFault =>
      by_cases hn : n = 0
      · simp [transientFault, hn]
      · simpa [transientFault, hn] using Nat.succ_le_succ (ih (i + 1))
    | otherFault => simp [transientFault]

/-- C8: the retry policy around every oracle call — at most
`stop_after_attempt = 3` API attempts per call; a first-attempt success
consumes exactly one attempt with no retry (so a malformed content string is
never retried: its parse failure is handled outside the retry loop and turns
the extraction into `None`); a non-transient exception is re-raised at once
with no retry; a persistent transport fault is retried with the backoff
sleeps and gives up after 3 attempts; every backoff sleep is between 4 and 10
seconds and nondecreasing; and an exhausted-retries fault only makes the
extraction adapter return no data for the conversation instead of escaping. -/
theorem retryPolicyBounded :
    (∀ oracle, (chatCompletion oracle).attemptsUsed ≤ stopAfterAttempt)
    ∧ (∀ oracle c, oracle 0 = ApiOutcome.success c →
        chatCompletion oracle =
          { result := .ok c, attemptsUsed := 1, waits := [] })
    ∧ (∀ oracle, oracle 0 = ApiOutcome.otherFault →
        chatCompletion oracle =
          { result := .error .immediateRaise, attemptsUsed := 1, waits := [] })
    ∧ (∀ oracle, (∀ i, oracle i = ApiOutcome.connectionFault) →
        chatCompletion oracle =
          { result := .error .retriesExhausted, attemptsUsed := 3
            waits := [4, 4] })
    ∧ (∀ n, 4 ≤ waitExponentialSeconds n ∧ waitExponentialSeconds n ≤ 10
        ∧ waitExponentialSeconds n ≤ waitExponentialSeconds (n + 1))
    ∧ (∀ oracle parse e, (chatCompletion oracle).result = Except.error e →
        extractBookingInformation oracle parse = none)
    ∧ (∀ oracle parse c, oracle 0 = ApiOutcome.success c → parse c = none →
        extractBookingInformation oracle parse = none) := by
  refine ⟨?_, ?_, ?_, ?_, ?_, ?_, ?_⟩
  · intro oracle
    exact chatCompletionAux_attempts_le oracle stopAfterAttempt 0
  · intro oracle c h
    simp [chatCompletion, stopAfterAttempt, chatCompletionAux, h]
  · intro oracle h
    simp [chatCompletion, stopAfterAttempt, chatCompletionAux, h, transientFault]
  · intro oracle h
    simp [chatCompletion, stopAfterAttempt, chatCompletionAux, h 0, h 1, h 2,
      transientFault, waitExponentialSeconds]
  · intro n
    refine ⟨le_max_left _ _, max_le (by norm_num) (min_le_right _ _), ?_⟩
    exact max_le_max le_rfl
      (min_le_min (Nat.pow_le_pow_right (by norm_num) (Nat.le_succ n)) le_rfl)
  · intro oracle parse e h
    simp [extractBookingInformation, h]
  · intro oracle parse c hc hp
    have hchat : chatCompletion oracle =
        { result := .ok c, attemptsUsed := 1, waits := [] } := by
      simp [chatCompletion, stopAfterAttempt, chatCompletionAux, hc]
    simp [extractBookingInformation, hchat, hp]

/-- Witness for C8: a first-attempt success, a first-attempt non-transient
fault, a persistent connection fault, and a well-transported but malformed
response, each at a concrete oracle. -/
theorem retryPolicyBoundedWitness :
    chatCompletion (fun _ => ApiOutcome.success "not json") =
      { result := .ok "not json", attemptsUsed := 1, waits := [] }
    ∧ chatCompletion (fun _ => ApiOutcome.otherFault) =
      { result := .error .immediateRaise, attemptsUsed := 1, waits := [] }
    ∧ chatCompletion (fun _ => ApiOutcome.connectionFault) =
      { result := .error .retriesExhausted, attemptsUsed := 3, waits := [4, 4] }
    ∧ extractBookingInformation (fun _ => ApiOutcome.connectionFault)
        (fun _ => some []) = none
    ∧ extractBookingInformation (fun _ => ApiOutcome.success "not json")
        (fun _ => none) = none :=
  ⟨retryPolicyBounded.2.1 (fun _ => ApiOutcome.success "not json") "not json" rfl,
   retryPolicyBounded.2.2.1 (fun _ => ApiOutcome.otherFault) rfl,
   retryPolicyBounded.2.2.2.1 (fun _ => ApiOutcome.connectionFault) (fun _ => rfl),
   retryPolicyBounded.2.2.2.2.2.1 (fun _ => ApiOutcome.connectionFault)
     (fun _ => some []) ChatError.retriesExhausted rfl,
   retryPolicyBounded.2.2.2.2.2.2 (fun _ => ApiOutcome.success "not json")
     (fun _ => none) "not json" rfl rfl⟩

/-- C9 counterexample: the record written by `save_booking_record` carries a
third key `ai_summary` (the AI-generated summary text), so its shape is not
the two-key shape the claim states. -/
theorem recordShapeCounterexample :
    recordKeys ≠ specRecordKeys ∧ "ai_summary" ∈ recordKeys := by
  decide

/-- A fault-free cycle whose validation reports completeness on the spot. -/
def completeInput : CycleInput :=
  { steadyInput with
    validationResponse := some
      { is_complete := true, missing_fields := [], questions := [] } }

/-- Script that completes on the first cycle. -/
def completeScript : Nat → CycleInput := fun _ => completeInput

/-- C9 (amended): every save appends exactly one line to the line-delimited
log and leaves all prior lines unchanged, the record's shape is the three-key
map (booking_data, ai_summary, timestamp), and a completed conversation that
the user confirms and whose summary call returns persists exactly one such
record. -/
theorem persistedRecordAppendOnly :
    (∀ log data summary ts,
        saveBookingRecord log data summary ts =
          log ++ [{ booking_data := data, ai_summary := summary,
                    timestamp := ts }]
        ∧ (saveBookingRecord log data summary ts).length = log.length + 1
        ∧ (saveBookingRecord log data summary ts).take log.length = log)
    ∧ recordKeys = ["booking_data", "ai_summary", "timestamp"]
    ∧ (∀ script sr ts log data summary,
        (runChain script).result = some data →
        sr = some summary →
        startBookingProcess script true sr ts log =
          { log := log ++ [{ booking_data := data, ai_summary := summary,
                             timestamp := ts }]
            outcome := BookingOutcome.completed }) := by
  refine ⟨?_, rfl, ?_⟩
  · intro log data summary ts
    refine ⟨rfl, ?_, ?_⟩
    · simp [saveBookingRecord]
    · simp [saveBookingRecord]
  · intro script sr ts log data summary h hsr
    simp [startBookingProcess, h, hsr, generateBookingSummary, saveBookingRecord]

/-- Witness for C9: a conversation that completes on cycle 1, is confirmed,
and has a successful summary call appends exactly its one record to an empty
log. -/
theorem persistedRecordAppendOnlyWitness :
    startBookingProcess completeScript true (some "Technician booked.")
        "2025-10-18T00:00:00+00:00" [] =
      { log := [{ booking_data :=
                    mergeState emptyState
                      (filterCandidate [("service_type", Value.vstr "ac_repair")])
                  ai_summary := "Technician booked."
                  timestamp := "2025-10-18T00:00:00+00:00" }]
        outcome := BookingOutcome.completed } :=
  persistedRecordAppendOnly.2.2 completeScript (some "Technician booked.")
    "2025-10-18T00:00:00+00:00" []
    (mergeState emptyState
      (filterCandidate [("service_type", Value.vstr "ac_repair")]))
    "Technician booked." rfl rfl

/-- Functions bound at module level in `src/agent/prompt.py`. -/
def promptModuleFunctions : List String :=
  ["get_guidance_prompt", "get_extraction_prompt", "get_validation_prompt",
   "get_followup_prompt"]

/-- Names the statement `from agent.prompt import (...)` at `cli.py:40-45`
requires to be bound in `agent.prompt`. -/
def cliPromptImportNames : List String :=
  ["get_llm_system_prompt", "get_extraction_prompt", "get_validation_prompt",
   "get_followup_prompt"]

/-- A Python `from module import a, b, ...` statement succeeds only when every
requested name is bound in the module; otherwise module load raises
ImportError. -/
def cliPromptImportOk : Bool :=
  cliPromptImportNames.all (fun n => promptModuleFunctions.contains n)

/-- C10: loading `src/cli.py` fails — it imports `get_llm_system_prompt` from
`agent.prompt`, but `agent/prompt.py` binds only the four functions of
`promptModuleFunctions`, so the import raises ImportError and the CLI entry
point (and with it the summary/persistence path that calls
`get_llm_system_prompt`) can never execute. -/
theorem cliImportFailure :
    cliPromptImportOk = false
    ∧ "get_llm_system_prompt" ∈ cliPromptImportNames
    ∧ "get_llm_system_prompt" ∉ promptModuleFunctions := by
  decide

end HvacAgent
